import Mathlib

/-!
Verification development for the AImee LiveKit voice-agent repository.

Shallow embedding of:
* `src/docker/agent/backend_client.py` — the `BackendClient` HTTP client
  (`chat`, `arrival`, `health_check`, `close`) and the `BackendResponse`
  dataclass;
* `src/docker/agent/aimee_agent.py` — the reconnection classification in
  `entrypoint`, the `session_holder` event handlers
  (`on_participant_connected`, `on_participant_disconnected`), the
  `create_agent_session` helper, and the `AImeeAgent` callbacks
  (`on_enter`, `on_user_turn_completed`, `_handle_backend_speech`).

Conventions of the embedding:
* Python `None`-able strings are `Option String` (`none` = Python `None`).
* A field of a parsed JSON dict is `Option (Option String)`: the outer
  `Option` records whether the key is present, the inner one whether its
  value is JSON null (`some none`) or a string (`some (some s)`).
  `dict.get(k, default)` is `pyGet`.
* Timestamps (`time.time()`) are rationals.
* Network I/O is abstracted by an `HttpOutcome` describing what the
  request produced (a response with status/body/raw text, or one of the
  exception kinds the code's `except` clauses dispatch on).
* `session.say` and `session.generate_reply` are modelled as emitted
  actions that do not themselves fail.
-/

namespace Backend

/-- `dict.get(key, default)` on a parsed-JSON field: if the key is absent
the default string is returned, otherwise the stored value (which may be
Python `None` when the JSON value was null). -/
def pyGet (field : Option (Option String)) (default : String) : Option String :=
  match field with
  | none => some default
  | some v => v

/-- The parsed JSON body of an HTTP response, restricted to the keys the
client reads: `success` (only its truthiness matters to the code),
`agent`, `response`, `metadata`, `error`, and `status` (read by
`health_check`). `metadata` is carried as an opaque string standing for
the JSON object. -/
structure Body where
  successTruthy : Bool
  agent : Option (Option String)
  response : Option (Option String)
  metadata : Option (Option String)
  error : Option (Option String)
  status : Option (Option String)
  deriving Repr, DecidableEq

/-- Outcome of an HTTP request as observed by the client code: a response
(with status code, parsed JSON body, and raw text used for non-200
errors), or an exception of one of the kinds the `except` clauses of
`chat` distinguish. -/
inductive HttpOutcome where
  | resp (status : Nat) (body : Body) (rawText : String)
  | timeoutExc (msg : String)
  | clientErrorExc (msg : String)
  | otherExc (msg : String)
  deriving Repr, DecidableEq

/-- The `BackendResponse` dataclass of `backend_client.py`:
`success`, `agent`, `response`, `metadata`, `error: Optional[str] = None`.
`agent`, `response` and `metadata` are `Option String` because the code
fills them with `data.get(...)`, which yields Python `None` on an
explicitly null JSON value. -/
structure BackendResponse where
  success : Bool
  agent : Option String
  response : Option String
  metadata : Option String
  error : Option String := none
  deriving Repr, DecidableEq

/-- The Python `{}` literal used as the default for `metadata`. -/
def emptyDict : String := "\x7b\x7d"

/-- `BackendClient.chat` (backend_client.py lines 57–175), as a function
of the router-enabled flag, the configured timeout (seconds), and the
outcome of the POST to `/aimee-chat`. Mirrors the source branch for
branch: disabled short-circuit, HTTP 200 with truthy/falsy `success`,
non-200 status, and the three `except` clauses. -/
def chat (enabled : Bool) (timeoutSecs : Nat) (outcome : HttpOutcome) :
    BackendResponse :=
  if !enabled then
    { success := false, agent := some "direct", response := some "",
      metadata := some emptyDict, error := some "Backend router is disabled" }
  else
    match outcome with
    | .resp status body rawText =>
      if status = 200 then
        if body.successTruthy then
          { success := true
            agent := pyGet body.agent "unknown"
            response := pyGet body.response ""
            metadata := pyGet body.metadata emptyDict
            error := none }
        else
          { success := false, agent := some "error", response := some "",
            metadata := some emptyDict,
            error := pyGet body.error "Unknown backend error" }
      else
        { success := false, agent := some "error", response := some "",
          metadata := some emptyDict,
          error := some ("HTTP " ++ toString status ++ ": " ++ rawText) }
    | .timeoutExc _ =>
      { success := false, agent := some "timeout", response := some "",
        metadata := some emptyDict,
        error := some ("Request timeout after " ++ toString timeoutSecs ++ "s") }
    | .clientErrorExc msg =>
      { success := false, agent := some "network_error", response := some "",
        metadata := some emptyDict,
        error := some ("Network error: " ++ msg) }
    | .otherExc msg =>
      { success := false, agent := some "unexpected_error", response := some "",
        metadata := some emptyDict,
        error := some ("Unexpected error: " ++ msg) }

/-- `BackendClient.arrival` (backend_client.py lines 177–277), as a
function of the router-enabled flag and the outcome of the POST to
`/aimee-arrival`. Unlike `chat`, the whole `try` block is guarded by a
single `except Exception` clause tagging every exception
`agent="arrival_error"`. -/
def arrival (enabled : Bool) (outcome : HttpOutcome) : BackendResponse :=
  if !enabled then
    { success := false, agent := some "direct", response := some "",
      metadata := some emptyDict, error := some "Backend router is disabled" }
  else
    match outcome with
    | .resp status body rawText =>
      if status = 200 then
        if body.successTruthy then
          { success := true
            agent := pyGet body.agent "unknown"
            response := pyGet body.response ""
            metadata := pyGet body.metadata emptyDict
            error := none }
        else
          { success := false, agent := some "error", response := some "",
            metadata := some emptyDict,
            error := pyGet body.error "Unknown backend error" }
      else
        { success := false, agent := some "error", response := some "",
          metadata := some emptyDict,
          error := some ("HTTP " ++ toString status ++ ": " ++ rawText) }
    | .timeoutExc msg =>
      { success := false, agent := some "arrival_error", response := some "",
        metadata := some emptyDict,
        error := some ("Arrival request error: " ++ msg) }
    | .clientErrorExc msg =>
      { success := false, agent := some "arrival_error", response := some "",
        metadata := some emptyDict,
        error := some ("Arrival request error: " ++ msg) }
    | .otherExc msg =>
      { success := false, agent := some "arrival_error", response := some "",
        metadata := some emptyDict,
        error := some ("Arrival request error: " ++ msg) }

/-- `data.get("status")` (no default) as read by `health_check`: `None`
when the key is absent or its value is null. -/
def pyGetNoDefault (field : Option (Option String)) : Option String :=
  match field with
  | none => none
  | some v => v

/-- `BackendClient.health_check` (backend_client.py lines 279–297): GET
`/health`; on HTTP 200 return `data.get("status") == "ok"`; any other
status falls through to `return False`; any exception is caught and
falls through to `return False`. -/
def health_check (outcome : HttpOutcome) : Bool :=
  match outcome with
  | .resp status body _ =>
    if status = 200 then pyGetNoDefault body.status == some "ok" else false
  | _ => false

/-- The connection-pooling state of a `BackendClient`: `_session` is
`None` until `_get_session` first runs, and once created carries aiohttp's
`closed` flag. -/
structure ClientState where
  pooled : Option Bool
  deriving Repr, DecidableEq

/-- The fresh client produced by `BackendClient.__init__`:
`self._session = None`. -/
def initClient : ClientState := { pooled := none }

/-- `BackendClient._get_session`: create the pooled session if absent or
closed. -/
def get_session (st : ClientState) : ClientState :=
  match st.pooled with
  | none => { pooled := some false }
  | some closed => if closed then { pooled := some false } else st

/-- `BackendClient.close` (backend_client.py lines 52–55):
`if self._session and not self._session.closed: await self._session.close()`.
Total — no branch can raise. -/
def close (st : ClientState) : ClientState :=
  match st.pooled with
  | none => st
  | some closed => if closed then st else { pooled := some true }

end Backend

namespace Agent

open Backend

/-- One entry of the module-level `_active_sessions` dict of
`aimee_agent.py`: `{"started": ..., "last_seen": ..., "participant_connected": ...}`.
Timestamps are rationals standing for `time.time()` values. -/
structure RoomRecord where
  started : ℚ
  last_seen : ℚ
  participant_connected : Bool
  deriving Repr, DecidableEq

/-- The `_active_sessions` map, keyed by room name. -/
def Sessions := String → Option RoomRecord

/-- The reconnection check of `entrypoint` (aimee_agent.py lines 265–277):
no record for the room means a new session (`false`); otherwise the join
is a reconnection iff strictly less than 300 seconds elapsed since
`last_seen` (read with `.get("last_seen", 0)`). -/
def checkReconnection (sessions : Sessions) (room : String) (now : ℚ) : Bool :=
  match sessions room with
  | none => false
  | some rec => decide (now - rec.last_seen < 300)

/-- The unconditional record overwrite of `entrypoint` (aimee_agent.py
lines 279–284): `_active_sessions[room_name] = {"started": now,
"last_seen": now, "participant_connected": False}`. -/
def trackSession (sessions : Sessions) (room : String) (now : ℚ) : Sessions :=
  fun r => if r = room then some ⟨now, now, false⟩ else sessions r

/-- The `session_holder` dict of `entrypoint` (aimee_agent.py line 288):
`{"session": None, "active": False, "had_active_session": False}`. -/
structure Holder where
  hasSession : Bool
  active : Bool
  had_active_session : Bool
  deriving Repr, DecidableEq

/-- The synchronous prefix of `create_agent_session` (aimee_agent.py
lines 312–314), which runs before the suspending `new_session.start`
call: store the session and set `active` and `had_active_session`. -/
def createFlags (_h : Holder) : Holder :=
  { hasSession := true, active := true, had_active_session := true }

/-- State of one `entrypoint` job: the `_active_sessions` map, the
`session_holder`, the `create_agent_session` tasks spawned with
`asyncio.create_task` that have not yet run (each carrying its
`is_reconnect` argument), and the log of sessions whose creation has
started (their `is_reconnection` flags, in order). -/
structure JobState where
  sessions : Sessions
  holder : Holder
  pendingTasks : List Bool
  startedFlags : List Bool

/-- Events observable by one job after its initial session was created:
room participant connect/disconnect callbacks (with the participant's
identity and the current `time.time()`), and the event loop running the
oldest pending `create_agent_session` task. -/
inductive Ev where
  | connect (identity : String) (now : ℚ)
  | disconnect (identity : String) (now : ℚ)
  | runTask

/-- Update the room's record in `_active_sessions` (the handlers mutate
the existing dict entry in place). -/
def touchRecord (sessions : Sessions) (room : String) (now : ℚ)
    (connected : Bool) : Sessions :=
  fun r =>
    if r = room then
      (sessions r).map fun rec => { rec with last_seen := now, participant_connected := connected }
    else sessions r

/-- One step of the job: the `on_participant_connected` handler
(aimee_agent.py lines 323–336), the `on_participant_disconnected` handler
(lines 338–345), or the event loop running a spawned
`create_agent_session` task (lines 291–316, whose synchronous prefix sets
the holder flags before the suspending `start`). Handlers ignore the
agent's own identity. A connect spawns a creation task (always with
`is_reconnect=True`) only when `active` is false and
`had_active_session` is true. -/
def step (agentId room : String) (st : JobState) : Ev → JobState
  | .connect identity now =>
    if identity = agentId then st
    else
      let st' := { st with sessions := touchRecord st.sessions room now true }
      if !st.holder.active && st.holder.had_active_session then
        { st' with pendingTasks := st'.pendingTasks ++ [true] }
      else st'
  | .disconnect identity now =>
    if identity = agentId then st
    else
      { st with
        sessions := touchRecord st.sessions room now false
        holder := { st.holder with active := false } }
  | .runTask =>
    match st.pendingTasks with
    | [] => st
    | isReconnect :: rest =>
      { st with
        holder := createFlags st.holder
        pendingTasks := rest
        startedFlags := st.startedFlags ++ [isReconnect] }

/-- Run a list of events through `step`. -/
def run (agentId room : String) (st : JobState) (evs : List Ev) : JobState :=
  evs.foldl (step agentId room) st

/-- The start of an `entrypoint` job (aimee_agent.py lines 265–288 and
347–349): classify the join against `_active_sessions`, overwrite the
room's record, initialise `session_holder`, and synchronously create the
initial agent session with `is_reconnect` set to the classification
(there is no suspension point between registering the handlers and the
initial `create_agent_session` setting the holder flags). -/
def entryInit (sessions : Sessions) (room : String) (now : ℚ) : JobState :=
  let isReconnection := checkReconnection sessions room now
  { sessions := trackSession sessions room now
    holder := createFlags { hasSession := false, active := false, had_active_session := false }
    pendingTasks := []
    startedFlags := [isReconnection] }

end Agent

namespace Agent

/-- Observable side effects of the `AImeeAgent` callbacks:
`session.say` of a backend response text, raising `StopResponse`, clearing
`new_message.text_content`, the bare `session.generate_reply()` fallback,
`session.generate_reply(instructions=...)` (with the welcome-back variant
chosen by `is_reconnection`), and delegating to
`super().on_user_turn_completed`. -/
inductive Act where
  | sayBackend (text : Option String)
  | raiseStop
  | clearMessage
  | localGenerate
  | genReplyWithInstructions (welcomeBack : Bool)
  | superDefault
  deriving Repr, DecidableEq

/-- What the awaited `backend_client.chat(...)` call inside the agent's
`try` block produced: a `BackendResponse`, or an exception caught by the
surrounding `except`. -/
inductive ChatOutcome where
  | ok (r : Backend.BackendResponse)
  | exc (msg : String)
  deriving Repr, DecidableEq

/-- `AImeeAgent._handle_backend_speech` (aimee_agent.py lines 207–234):
on a successful backend response, speak it and report `True`; on a failed
response or an exception, report `False` having spoken nothing. -/
def handleBackendSpeech : ChatOutcome → Bool × List Act
  | .ok r => if r.success then (true, [.sayBackend r.response]) else (false, [])
  | .exc _ => (false, [])

/-- `AImeeAgent.on_user_turn_completed` (aimee_agent.py lines 180–205),
with `stopRespAvailable` recording whether the optional `StopResponse`
name was importable: when the router is on, a handled backend turn ends with
`raise StopResponse()` (or, without it, clearing the message); an
unhandled one falls back to `session.generate_reply()`; router off
delegates to the superclass. -/
def onUserTurnCompleted (useRouter stopRespAvailable : Bool)
    (co : ChatOutcome) : List Act :=
  if useRouter then
    match handleBackendSpeech co with
    | (true, acts) =>
      acts ++ [if stopRespAvailable then Act.raiseStop else Act.clearMessage]
    | (false, acts) => acts ++ [Act.localGenerate]
  else [Act.superDefault]

/-- `acts` contains a `session.say` of some backend text. -/
def isSay : Act → Bool
  | .sayBackend _ => true
  | _ => false

/-- `acts` contains a local-model generation (`session.generate_reply`,
with or without instructions). -/
def isLocalGen : Act → Bool
  | .localGenerate => true
  | .genReplyWithInstructions _ => true
  | _ => false

/-- The mutable state of an `AImeeAgent` instance relevant to its entry
callback: constructor arguments and the `_session_started` one-shot flag. -/
structure AgentState where
  use_backend_router : Bool
  room_name : String
  is_reconnection : Bool
  session_started : Bool
  deriving Repr, DecidableEq

/-- `AImeeAgent.__init__` (aimee_agent.py lines 112–119):
`self._session_started = False`. -/
def mkAImeeAgent (useRouter : Bool) (room : String) (isRecon : Bool) :
    AgentState :=
  { use_backend_router := useRouter, room_name := room,
    is_reconnection := isRecon, session_started := false }

/-- `AImeeAgent.on_enter` (aimee_agent.py lines 121–178): return
immediately if `_session_started` is already set, else set it; with the
backend router on, try a memory-aware greeting via `backend_client.chat`
and speak it on success; on backend failure or exception, or with the
router off, fall back to `session.generate_reply` with
reconnection-dependent instructions. -/
def on_enter (st : AgentState) (co : ChatOutcome) : AgentState × List Act :=
  if st.session_started then (st, [])
  else
    let st' := { st with session_started := true }
    if st.use_backend_router then
      match co with
      | .ok r =>
        if r.success then (st', [.sayBackend r.response])
        else (st', [.genReplyWithInstructions st.is_reconnection])
      | .exc _ => (st', [.genReplyWithInstructions st.is_reconnection])
    else (st', [.genReplyWithInstructions st.is_reconnection])

end Agent


namespace Backend

/-- The HTTP outcomes on which the client's error field can end up Python
`None` despite a failure: an HTTP 200 body with falsy `success` whose
`error` key is present but explicitly null, so that
`data.get("error", "Unknown backend error")` returns `None`. -/
def hasNullErrorField : HttpOutcome → Bool
  | .resp status body _ =>
    status == 200 && !body.successTruthy && body.error == some none
  | _ => false

end Backend

open Backend Agent

/-- C1: reconnection classification in `entrypoint`: with no record for
the room the join is NEW (`false`); with a record it is a reconnection
iff strictly less than 300 seconds elapsed since `last_seen` (so exactly
300 is NOT a reconnection); and regardless of the classification the
record is overwritten with `started = last_seen = now` and
`participant_connected = false`. -/
theorem C1_reconnection_classified (sessions : Sessions) (room : String)
    (now : ℚ) :
    (sessions room = none → checkReconnection sessions room now = false)
    ∧ (∀ rec, sessions room = some rec →
        (checkReconnection sessions room now = true ↔ now - rec.last_seen < 300))
    ∧ trackSession sessions room now room = some ⟨now, now, false⟩ := by
  refine ⟨fun h => ?_, fun rec h => ?_, ?_⟩
  · simp [checkReconnection, h]
  · simp [checkReconnection, h]
  · simp [trackSession]

/-- C1 witness: concrete instances — no record gives NEW; a record seen
100 s ago with a join at 400 s (elapsed exactly 300) gives NOT a
reconnection; the record is overwritten. -/
theorem C1_witness :
    checkReconnection (fun _ => none) "r1" 50 = false
    ∧ (checkReconnection (fun _ => some ⟨0, 100, true⟩) "r1" 400 = true ↔
        (400 : ℚ) - 100 < 300)
    ∧ trackSession (fun _ => none) "r1" 50 "r1" = some ⟨50, 50, false⟩ :=
  ⟨(C1_reconnection_classified (fun _ => none) "r1" 50).1 rfl,
   (C1_reconnection_classified (fun _ => some ⟨0, 100, true⟩) "r1" 400).2.1
     ⟨0, 100, true⟩ rfl,
   (C1_reconnection_classified (fun _ => none) "r1" 50).2.2⟩

/-- C8: `BackendClient.close` is idempotent and safe in every client
state, in particular on a client whose pooled session was never opened
(`_session is None`), where it is a no-op. -/
theorem C8_close_idempotent_safe (st : ClientState) :
    close (close st) = close st ∧ close initClient = initClient := by
  obtain ⟨p⟩ := st
  refine ⟨?_, rfl⟩
  match p with
  | none => rfl
  | some true => rfl
  | some false => rfl

/-- C10: `health_check` is total in the model (it returns a boolean on
every HTTP outcome, exceptions included) and returns `true` exactly when
the GET produced HTTP 200 with a body whose `status` key holds the
string `"ok"`; every other status, body, or exception yields `false`. -/
theorem C10_health_check_total_strict (o : HttpOutcome) :
    health_check o = true ↔
      ∃ body rawText, o = .resp 200 body rawText
        ∧ pyGetNoDefault body.status = some "ok" := by
  cases o with
  | resp status body rawText =>
    by_cases h : status = 200
    · subst h
      simp [health_check]
    · simp [health_check, h]
  | timeoutExc msg => simp [health_check]
  | clientErrorExc msg => simp [health_check]
  | otherExc msg => simp [health_check]

/-- C6: greeting dedup in `AImeeAgent.on_enter`: whatever state the
agent is in and whatever the backend does on either invocation, a second
call to `on_enter` leaves the state unchanged and emits no action (so
calling it twice is equivalent to calling it once); and the first call
on a freshly constructed agent does emit a greeting action. -/
theorem C6_on_enter_once (st : AgentState) (co co2 : ChatOutcome)
    (u : Bool) (room : String) (isRecon : Bool) :
    on_enter (on_enter st co).1 co2 = ((on_enter st co).1, [])
    ∧ (on_enter (mkAImeeAgent u room isRecon) co).2 ≠ [] := by
  constructor
  · by_cases h : st.session_started = true
    · simp [on_enter, h]
    · simp only [Bool.not_eq_true] at h
      cases hu : st.use_backend_router with
      | false => simp [on_enter, h, hu]
      | true =>
        cases co with
        | ok r =>
          by_cases hs : r.success = true
          · simp [on_enter, h, hu, hs]
          · simp only [Bool.not_eq_true] at hs
            simp [on_enter, h, hu, hs]
        | exc m => simp [on_enter, h, hu]
  · cases u with
    | false => simp [on_enter, mkAImeeAgent]
    | true =>
      cases co with
      | ok r =>
        by_cases hs : r.success = true
        · simp [on_enter, mkAImeeAgent, hs]
        · simp only [Bool.not_eq_true] at hs
          simp [on_enter, mkAImeeAgent, hs]
      | exc m => simp [on_enter, mkAImeeAgent]

/-- C2: exactly-once reply with fail-open fallback in
`on_user_turn_completed` when the backend router is on: a successful
backend response is spoken exactly once and the local generation path
does not run; a failed response or an exception runs the local
generation path exactly once and speaks nothing; and in no case do a
backend say and a local generation both occur. -/
theorem C2_exactly_once_reply (stopRespAvailable : Bool) (co : ChatOutcome) :
    (∀ r, co = .ok r → r.success = true →
      (onUserTurnCompleted true stopRespAvailable co).count
          (Act.sayBackend r.response) = 1
      ∧ (onUserTurnCompleted true stopRespAvailable co).filter isLocalGen = [])
    ∧ (∀ r, co = .ok r → r.success = false →
      ((onUserTurnCompleted true stopRespAvailable co).filter isLocalGen).length = 1
      ∧ (onUserTurnCompleted true stopRespAvailable co).filter isSay = [])
    ∧ (∀ msg, co = .exc msg →
      ((onUserTurnCompleted true stopRespAvailable co).filter isLocalGen).length = 1
      ∧ (onUserTurnCompleted true stopRespAvailable co).filter isSay = [])
    ∧ ¬((onUserTurnCompleted true stopRespAvailable co).filter isSay ≠ []
        ∧ (onUserTurnCompleted true stopRespAvailable co).filter isLocalGen ≠ []) := by
  refine ⟨fun r hco hs => ?_, fun r hco hs => ?_, fun msg hco => ?_, ?_⟩
  · subst hco
    cases stopRespAvailable <;>
      simp [onUserTurnCompleted, handleBackendSpeech, hs, isLocalGen, isSay,
        List.count_cons, List.filter]
  · subst hco
    simp [onUserTurnCompleted, handleBackendSpeech, hs, isLocalGen, isSay,
      List.filter]
  · subst hco
    simp [onUserTurnCompleted, handleBackendSpeech, isLocalGen, isSay,
      List.filter]
  · cases co with
    | ok r =>
      by_cases hs : r.success = true
      · cases stopRespAvailable <;>
          simp [onUserTurnCompleted, handleBackendSpeech, hs, isLocalGen,
            isSay, List.filter]
      · simp only [Bool.not_eq_true] at hs
        simp [onUserTurnCompleted, handleBackendSpeech, hs, isLocalGen, isSay,
          List.filter]
    | exc m =>
      simp [onUserTurnCompleted, handleBackendSpeech, isLocalGen, isSay,
        List.filter]

/-- C2 witness: a successful backend response is spoken once with no
local generation; a failed one triggers exactly one local generation and
no say. -/
theorem C2_witness :
    ((onUserTurnCompleted true true
        (.ok ⟨true, some "router", some "hello", some "m", none⟩)).count
        (Act.sayBackend (some "hello")) = 1
      ∧ (onUserTurnCompleted true true
          (.ok ⟨true, some "router", some "hello", some "m", none⟩)).filter
          isLocalGen = [])
    ∧ (((onUserTurnCompleted true true (.exc "boom")).filter
          isLocalGen).length = 1
      ∧ (onUserTurnCompleted true true (.exc "boom")).filter isSay = []) :=
  ⟨(C2_exactly_once_reply true
      (.ok ⟨true, some "router", some "hello", some "m", none⟩)).1
      ⟨true, some "router", some "hello", some "m", none⟩ rfl rfl,
   (C2_exactly_once_reply true (.exc "boom")).2.2.1 "boom" rfl⟩

/-- C5 counterexample to "a rapid double participant-connected event
produces at most one session creation, never two": starting from the
initial job state (one session created), after a disconnect two connect
events arrive before the event loop runs their spawned
`create_agent_session` tasks; both tasks are spawned and both run, so
two further sessions are created. -/
theorem C5_double_connect_two_creations :
    (run "aimee-agent" "r1" (entryInit (fun _ => none) "r1" 0)
        [.disconnect "user" 10, .connect "user" 20, .connect "user" 21,
         .runTask, .runTask]).startedFlags = [false, true, true] := by
  rfl

/-- C5 (amended): a participant-connected event for a non-agent identity
arriving while `active` is true spawns no session-creation task, starts
no session, and leaves the holder unchanged (it only refreshes the
room's tracking record); and any single connect event spawns at most one
creation task. Two connects arriving while `active` is false with
`had_active_session` true (before a previously spawned creation task has
run) each spawn a task, so the "never two" consequence holds only when
each spawned creation runs before the next connect. -/
theorem C5_no_reentrant_creation (agentId room : String) (st : JobState)
    (identity : String) (now : ℚ) :
    (st.holder.active = true →
      (step agentId room st (.connect identity now)).pendingTasks
          = st.pendingTasks
      ∧ (step agentId room st (.connect identity now)).startedFlags
          = st.startedFlags
      ∧ (step agentId room st (.connect identity now)).holder = st.holder)
    ∧ ((step agentId room st (.connect identity now)).pendingTasks
          = st.pendingTasks
        ∨ (step agentId room st (.connect identity now)).pendingTasks
          = st.pendingTasks ++ [true]) := by
  constructor
  · intro ha
    by_cases hid : identity = agentId
    · simp [step, hid]
    · simp [step, hid, ha]
  · by_cases hid : identity = agentId
    · left
      simp [step, hid]
    · by_cases hg : (!st.holder.active && st.holder.had_active_session) = true
      · right
        simp [step, hid, hg]
      · left
        simp [step, hid, hg]

/-- C5 witness: with an active holder, a connect spawns nothing and
leaves the holder as it was. -/
theorem C5_witness :
    (step "aimee-agent" "r1"
        { sessions := fun _ => none,
          holder := { hasSession := true, active := true, had_active_session := true },
          pendingTasks := [], startedFlags := [false] }
        (.connect "user" 7)).pendingTasks = []
    ∧ (step "aimee-agent" "r1"
        { sessions := fun _ => none,
          holder := { hasSession := true, active := true, had_active_session := true },
          pendingTasks := [], startedFlags := [false] }
        (.connect "user" 7)).startedFlags = [false]
    ∧ (step "aimee-agent" "r1"
        { sessions := fun _ => none,
          holder := { hasSession := true, active := true, had_active_session := true },
          pendingTasks := [], startedFlags := [false] }
        (.connect "user" 7)).holder
      = { hasSession := true, active := true, had_active_session := true } :=
  (C5_no_reentrant_creation "aimee-agent" "r1"
    { sessions := fun _ => none,
      holder := { hasSession := true, active := true, had_active_session := true },
      pendingTasks := [], startedFlags := [false] }
    "user" 7).1 rfl

/-- C4 counterexample to "a disconnect/connect pair re-evaluates elapsed
time against the 300-second window": the participant disconnects at
t=100 and reconnects at t=500, so elapsed is 400 ≥ 300 and the
entrypoint-style check would classify the join NEW (`false`); yet the
session created by the connect handler is classified RECONNECTION
(its `is_reconnect` flag is `true`). -/
theorem C4_stale_reconnect_flag :
    checkReconnection
        (run "aimee-agent" "r1" (entryInit (fun _ => none) "r1" 0)
          [.disconnect "user" 100]).sessions "r1" 500 = false
    ∧ (run "aimee-agent" "r1" (entryInit (fun _ => none) "r1" 0)
        [.disconnect "user" 100, .connect "user" 500,
         .runTask]).startedFlags = [false, true] := by
  constructor
  · simp [run, step, entryInit, checkReconnection, touchRecord, trackSession,
      createFlags]
    norm_num
  · rfl

/-- C4 (amended): within one job, the connect handler never re-evaluates
elapsed time — every session-creation task it spawns carries
`is_reconnect = true`, whatever the timestamps; the 300-second window is
evaluated only by the entry classification, which records
`checkReconnection` of the pre-existing map as the initial session's
flag. -/
theorem C4_handler_always_reconnect (agentId room : String) (st : JobState)
    (identity : String) (now : ℚ) (sessions : Sessions) (now0 : ℚ) :
    ((step agentId room st (.connect identity now)).pendingTasks
        = st.pendingTasks
      ∨ (step agentId room st (.connect identity now)).pendingTasks
        = st.pendingTasks ++ [true])
    ∧ (entryInit sessions room now0).startedFlags
        = [checkReconnection sessions room now0] := by
  constructor
  · by_cases hid : identity = agentId
    · left
      simp [step, hid]
    · by_cases hg : (!st.holder.active && st.holder.had_active_session) = true
      · right
        simp [step, hid, hg]
      · left
        simp [step, hid, hg]
  · rfl

/-- C9: session-holder flag ordering and monotonicity. (a) When a spawned
creation task runs, the holder ends with `session` stored and `active`
and `had_active_session` both true (set by the synchronous prefix of
`create_agent_session` before the suspending `start`), and the start is
logged with the task's `is_reconnect` flag. (b) No event resets
`had_active_session` once it is true. (c) While `active` is true a
connect spawns no task and starts no session. (d) A connect enlarges the
pending tasks only if `had_active_session` is already true, and the
invariant "`had_active_session` implies some session creation has
started" is preserved by every event; it holds at job entry, where the
initial creation sets all three holder flags. -/
theorem C9_holder_flag_invariants (agentId room : String) (st : JobState)
    (e : Ev) (identity : String) (now : ℚ) (sessions : Sessions) (now0 : ℚ) :
    (∀ b rest, st.pendingTasks = b :: rest →
      (step agentId room st .runTask).holder
          = { hasSession := true, active := true, had_active_session := true }
      ∧ (step agentId room st .runTask).startedFlags = st.startedFlags ++ [b])
    ∧ (st.holder.had_active_session = true →
        (step agentId room st e).holder.had_active_session = true)
    ∧ (st.holder.active = true →
        (step agentId room st (.connect identity now)).pendingTasks
            = st.pendingTasks
        ∧ (step agentId room st (.connect identity now)).startedFlags
            = st.startedFlags)
    ∧ ((step agentId room st (.connect identity now)).pendingTasks
          ≠ st.pendingTasks → st.holder.had_active_session = true)
    ∧ ((st.holder.had_active_session = true → st.startedFlags ≠ []) →
        (step agentId room st e).holder.had_active_session = true →
        (step agentId room st e).startedFlags ≠ [])
    ∧ (entryInit sessions room now0).holder
        = { hasSession := true, active := true, had_active_session := true }
    ∧ (entryInit sessions room now0).startedFlags ≠ [] := by
  have hconn : ∀ (h : Bool),
      (step agentId room st (.connect identity now)).pendingTasks = st.pendingTasks
      ∨ ((step agentId room st (.connect identity now)).pendingTasks
          = st.pendingTasks ++ [true]
        ∧ st.holder.had_active_session = true) := by
    intro _
    by_cases hid : identity = agentId
    · left
      simp [step, hid]
    · by_cases hg : (!st.holder.active && st.holder.had_active_session) = true
      · right
        refine ⟨by simp [step, hid, hg], ?_⟩
        exact (Bool.and_eq_true _ _ |>.mp hg).2
      · left
        simp [step, hid, hg]
  refine ⟨fun b rest hp => ?_, fun hh => ?_, fun ha => ?_, fun hne => ?_,
    fun hinv hh => ?_, rfl, by simp [entryInit]⟩
  · constructor
    · simp [step, hp, createFlags]
    · simp [step, hp]
  · cases e with
    | connect identity2 now2 =>
      by_cases hid : identity2 = agentId
      · simp [step, hid, hh]
      · simp only [step, hid, if_false, ite_false]
        split <;> simp [hh]
    | disconnect identity2 now2 =>
      by_cases hid : identity2 = agentId
      · simp [step, hid, hh]
      · simp [step, hid, hh]
    | runTask =>
      cases hp : st.pendingTasks with
      | nil => simp [step, hp, hh]
      | cons b rest => simp [step, hp, createFlags]
  · have hg : (!st.holder.active && st.holder.had_active_session) = false := by
      simp [ha]
    by_cases hid : identity = agentId
    · constructor <;> simp [step, hid]
    · constructor <;> simp [step, hid, hg]
  · rcases hconn true with h | ⟨_, hh⟩
    · exact absurd h hne
    · exact hh
  · cases e with
    | connect identity2 now2 =>
      have hsf : (step agentId room st (.connect identity2 now2)).startedFlags
          = st.startedFlags := by
        by_cases hid : identity2 = agentId
        · simp [step, hid]
        · by_cases hg : (!st.holder.active && st.holder.had_active_session) = true
          · simp [step, hid, hg]
          · simp [step, hid, hg]
      have hhd : (step agentId room st (.connect identity2 now2)).holder.had_active_session
          = st.holder.had_active_session := by
        by_cases hid : identity2 = agentId
        · simp [step, hid]
        · by_cases hg : (!st.holder.active && st.holder.had_active_session) = true
          · simp [step, hid, hg]
          · simp [step, hid, hg]
      rw [hsf]
      rw [hhd] at hh
      exact hinv hh
    | disconnect identity2 now2 =>
      have hsf : (step agentId room st (.disconnect identity2 now2)).startedFlags
          = st.startedFlags := by
        by_cases hid : identity2 = agentId
        · simp [step, hid]
        · simp [step, hid]
      have hhd : (step agentId room st (.disconnect identity2 now2)).holder.had_active_session
          = st.holder.had_active_session := by
        by_cases hid : identity2 = agentId
        · simp [step, hid]
        · simp [step, hid]
      rw [hsf]
      rw [hhd] at hh
      exact hinv hh
    | runTask =>
      cases hp : st.pendingTasks with
      | nil =>
        rw [show step agentId room st .runTask = st by simp [step, hp]] at hh ⊢
        exact hinv hh
      | cons b rest =>
        simp [step, hp]

/-- C9 witness: running a pending task from a holder with all flags clear
sets the session, `active` and `had_active_session`, and logs the start;
the invariant transfer and the entry facts hold at a concrete state. -/
theorem C9_witness :
    (step "aimee-agent" "r1"
        { sessions := fun _ => none,
          holder := { hasSession := false, active := false, had_active_session := true },
          pendingTasks := [true], startedFlags := [false] } .runTask).holder
      = { hasSession := true, active := true, had_active_session := true }
    ∧ (step "aimee-agent" "r1"
        { sessions := fun _ => none,
          holder := { hasSession := false, active := false, had_active_session := true },
          pendingTasks := [true], startedFlags := [false] } .runTask).startedFlags
      = [false, true]
    ∧ (step "aimee-agent" "r1"
        { sessions := fun _ => none,
          holder := { hasSession := false, active := false, had_active_session := true },
          pendingTasks := [true], startedFlags := [false] } .runTask).startedFlags
      ≠ [] :=
  ⟨((C9_holder_flag_invariants "aimee-agent" "r1"
      { sessions := fun _ => none,
        holder := { hasSession := false, active := false, had_active_session := true },
        pendingTasks := [true], startedFlags := [false] }
      .runTask "user" 5 (fun _ => none) 0).1 true [] rfl).1,
   ((C9_holder_flag_invariants "aimee-agent" "r1"
      { sessions := fun _ => none,
        holder := { hasSession := false, active := false, had_active_session := true },
        pendingTasks := [true], startedFlags := [false] }
      .runTask "user" 5 (fun _ => none) 0).1 true [] rfl).2,
   (C9_holder_flag_invariants "aimee-agent" "r1"
      { sessions := fun _ => none,
        holder := { hasSession := false, active := false, had_active_session := true },
        pendingTasks := [true], startedFlags := [false] }
      .runTask "user" 5 (fun _ => none) 0).2.2.2.2.1
      (fun _ => by decide) (by decide)⟩

/-- C3 counterexample: a timeout during `arrival` is tagged
`agent="arrival_error"`, not `agent="timeout"` as the claim requires for
every call to chat or arrival; and the disabled short-circuit carries the
error string `"Backend router is disabled"`, not `"disabled"`. -/
theorem C3_arrival_timeout_misclassified :
    (arrival true (.timeoutExc "t")).agent = some "arrival_error"
    ∧ (arrival true (.timeoutExc "t")).agent ≠ some "timeout"
    ∧ (chat false 10 (.timeoutExc "t")).error = some "Backend router is disabled"
    ∧ (chat false 10 (.timeoutExc "t")).error ≠ some "disabled" := by
  refine ⟨rfl, by decide, rfl, by decide⟩

/-- C3 (amended): backend result classification. With routing disabled,
`chat` and `arrival` return `success=false, agent="direct"` with error
string `"Backend router is disabled"`, independently of any network
outcome (no network call). With routing enabled: HTTP 200 with truthy
`success` passes `agent`, `response`, `metadata` through; HTTP 200 with
falsy `success` fails with `agent="error"` and the body's error string;
any other status fails with `agent="error"` and `"HTTP <status>: <body>"`.
On exceptions, `chat` distinguishes `timeout`, `network_error` and
`unexpected_error`, while `arrival` tags every exception
`agent="arrival_error"`. Every failure is a returned `BackendResponse`
(the functions are total). -/
theorem C3_backend_result_classified (t : Nat) (o : HttpOutcome) :
    ((∀ o2 : HttpOutcome, chat false t o2 = chat false t o
        ∧ arrival false o2 = arrival false o)
      ∧ chat false t o
        = { success := false, agent := some "direct", response := some "",
            metadata := some emptyDict,
            error := some "Backend router is disabled" }
      ∧ arrival false o = chat false t o)
    ∧ (∀ body rawText, o = .resp 200 body rawText → body.successTruthy = true →
        chat true t o
          = { success := true, agent := pyGet body.agent "unknown",
              response := pyGet body.response "",
              metadata := pyGet body.metadata emptyDict, error := none }
        ∧ arrival true o = chat true t o)
    ∧ (∀ body rawText, o = .resp 200 body rawText → body.successTruthy = false →
        chat true t o
          = { success := false, agent := some "error", response := some "",
              metadata := some emptyDict,
              error := pyGet body.error "Unknown backend error" }
        ∧ arrival true o = chat true t o)
    ∧ (∀ s body rawText, o = .resp s body rawText → s ≠ 200 →
        chat true t o
          = { success := false, agent := some "error", response := some "",
              metadata := some emptyDict,
              error := some ("HTTP " ++ toString s ++ ": " ++ rawText) }
        ∧ arrival true o = chat true t o)
    ∧ (∀ msg, o = .timeoutExc msg →
        chat true t o
          = { success := false, agent := some "timeout", response := some "",
              metadata := some emptyDict,
              error := some ("Request timeout after " ++ toString t ++ "s") }
        ∧ (arrival true o).agent = some "arrival_error"
        ∧ (arrival true o).success = false)
    ∧ (∀ msg, o = .clientErrorExc msg →
        (chat true t o).agent = some "network_error"
        ∧ (chat true t o).success = false
        ∧ (arrival true o).agent = some "arrival_error"
        ∧ (arrival true o).success = false)
    ∧ (∀ msg, o = .otherExc msg →
        (chat true t o).agent = some "unexpected_error"
        ∧ (chat true t o).success = false
        ∧ (arrival true o).agent = some "arrival_error"
        ∧ (arrival true o).success = false) := by
  refine ⟨⟨fun o2 => ⟨?_, ?_⟩, ?_, ?_⟩, fun body rawText ho hs => ?_,
    fun body rawText ho hs => ?_, fun s body rawText ho hs => ?_,
    fun msg ho => ?_, fun msg ho => ?_, fun msg ho => ?_⟩
  · cases o <;> cases o2 <;> rfl
  · cases o <;> cases o2 <;> rfl
  · cases o <;> rfl
  · cases o <;> rfl
  · subst ho
    exact ⟨by simp [chat, hs], by simp [arrival, chat, hs]⟩
  · subst ho
    simp only [Bool.not_eq_true] at hs
    exact ⟨by simp [chat, hs], by simp [arrival, chat, hs]⟩
  · subst ho
    exact ⟨by simp [chat, hs], by simp [arrival, chat, hs]⟩
  · subst ho
    exact ⟨rfl, rfl, rfl⟩
  · subst ho
    exact ⟨rfl, rfl, rfl, rfl⟩
  · subst ho
    exact ⟨rfl, rfl, rfl, rfl⟩

/-- C3 witness: concrete instances of every branch of the classification:
disabled short-circuit, 200/success pass-through, 200/failure, HTTP 500,
and the three exception kinds (with `arrival` tagging them all
`arrival_error`). -/
theorem C3_witness :
    (chat false 10 (.otherExc "x")
      = { success := false, agent := some "direct", response := some "",
          metadata := some emptyDict,
          error := some "Backend router is disabled" })
    ∧ chat true 10
        (.resp 200 ⟨true, some (some "router"), some (some "hi"), none, none, none⟩ "raw")
      = { success := true, agent := some "router", response := some "hi",
          metadata := some emptyDict, error := none }
    ∧ chat true 10
        (.resp 200 ⟨false, none, none, none, some (some "bad"), none⟩ "raw")
      = { success := false, agent := some "error", response := some "",
          metadata := some emptyDict, error := some "bad" }
    ∧ chat true 10
        (.resp 500 ⟨false, none, none, none, none, none⟩ "oops")
      = { success := false, agent := some "error", response := some "",
          metadata := some emptyDict, error := some ("HTTP " ++ toString 500 ++ ": " ++ "oops") }
    ∧ chat true 10 (.timeoutExc "slow")
      = { success := false, agent := some "timeout", response := some "",
          metadata := some emptyDict,
          error := some ("Request timeout after " ++ toString 10 ++ "s") }
    ∧ (chat true 10 (.clientErrorExc "refused")).agent = some "network_error"
    ∧ (chat true 10 (.otherExc "boom")).agent = some "unexpected_error"
    ∧ (arrival true (.timeoutExc "slow")).agent = some "arrival_error"
    ∧ (arrival true (.clientErrorExc "refused")).agent = some "arrival_error"
    ∧ (arrival true (.otherExc "boom")).agent = some "arrival_error" :=
  ⟨(C3_backend_result_classified 10 (.otherExc "x")).1.2.1,
   ((C3_backend_result_classified 10
      (.resp 200 ⟨true, some (some "router"), some (some "hi"), none, none, none⟩ "raw")).2.1
      ⟨true, some (some "router"), some (some "hi"), none, none, none⟩ "raw" rfl rfl).1,
   ((C3_backend_result_classified 10
      (.resp 200 ⟨false, none, none, none, some (some "bad"), none⟩ "raw")).2.2.1
      ⟨false, none, none, none, some (some "bad"), none⟩ "raw" rfl rfl).1,
   ((C3_backend_result_classified 10
      (.resp 500 ⟨false, none, none, none, none, none⟩ "oops")).2.2.2.1
      500 ⟨false, none, none, none, none, none⟩ "oops" rfl (by decide)).1,
   ((C3_backend_result_classified 10 (.timeoutExc "slow")).2.2.2.2.1 "slow" rfl).1,
   ((C3_backend_result_classified 10 (.clientErrorExc "refused")).2.2.2.2.2.1 "refused" rfl).1,
   ((C3_backend_result_classified 10 (.otherExc "boom")).2.2.2.2.2.2 "boom" rfl).1,
   ((C3_backend_result_classified 10 (.timeoutExc "slow")).2.2.2.2.1 "slow" rfl).2.1,
   ((C3_backend_result_classified 10 (.clientErrorExc "refused")).2.2.2.2.2.1 "refused" rfl).2.2.1,
   ((C3_backend_result_classified 10 (.otherExc "boom")).2.2.2.2.2.2 "boom" rfl).2.2.1⟩

/-- C7 counterexample: an HTTP 200 body with falsy `success` whose
`error` key is present but explicitly null makes
`data.get("error", "Unknown backend error")` return Python `None`, so
`chat` returns `success=false` with a null `error` field — refuting
"error is present iff success is false". -/
theorem C7_null_error_on_failure :
    (chat true 10 (.resp 200 ⟨false, none, none, none, some none, none⟩ "raw")).success
      = false
    ∧ (chat true 10 (.resp 200 ⟨false, none, none, none, some none, none⟩ "raw")).error
      = none := by
  exact ⟨rfl, rfl⟩

/-- C7 (amended): for every `BackendResponse` returned by `chat` or
`arrival`: `response` is the empty string whenever `success` is false;
`error` is absent whenever `success` is true; and `error` is present
whenever `success` is false, except in the one case where an HTTP 200
body carries falsy `success` together with an explicitly-null `error`
key, which surfaces as a failure with a null `error`. -/
theorem C7_error_iff_failure (enabled : Bool) (t : Nat) (o : HttpOutcome)
    (r : BackendResponse)
    (hr : r = chat enabled t o ∨ r = arrival enabled o) :
    (r.success = false → r.response = some "")
    ∧ (r.success = true → r.error = none)
    ∧ (r.success = false → hasNullErrorField o = false → r.error ≠ none) := by
  rcases hr with hr | hr <;> subst hr
  · cases enabled with
    | false => exact ⟨fun _ => rfl, fun h => by simp [chat] at h, fun _ _ => by simp [chat]⟩
    | true =>
      cases o with
      | resp s body rawText =>
        by_cases h200 : s = 200
        · subst h200
          by_cases htr : body.successTruthy = true
          · refine ⟨fun h => ?_, fun _ => by simp [chat, htr], fun h _ => ?_⟩
            · simp [chat, htr] at h
            · simp [chat, htr] at h
          · simp only [Bool.not_eq_true] at htr
            refine ⟨fun _ => by simp [chat, htr], fun h => ?_, fun _ hn => ?_⟩
            · simp [chat, htr] at h
            · simp only [hasNullErrorField, htr, Bool.not_false, Bool.and_self,
                beq_self_eq_true, Bool.true_and] at hn
              simp only [chat, htr, if_true, if_false]
              cases hbe : body.error with
              | none => simp [pyGet]
              | some v =>
                cases v with
                | none => simp [hbe] at hn
                | some msg => simp [pyGet, hbe]
        · refine ⟨fun _ => by simp [chat, h200], fun h => ?_, fun _ _ => by simp [chat, h200]⟩
          simp [chat, h200] at h
      | timeoutExc msg =>
        exact ⟨fun _ => rfl, fun h => by simp [chat] at h, fun _ _ => by simp [chat]⟩
      | clientErrorExc msg =>
        exact ⟨fun _ => rfl, fun h => by simp [chat] at h, fun _ _ => by simp [chat]⟩
      | otherExc msg =>
        exact ⟨fun _ => rfl, fun h => by simp [chat] at h, fun _ _ => by simp [chat]⟩
  · cases enabled with
    | false => exact ⟨fun _ => rfl, fun h => by simp [arrival] at h, fun _ _ => by simp [arrival]⟩
    | true =>
      cases o with
      | resp s body rawText =>
        by_cases h200 : s = 200
        · subst h200
          by_cases htr : body.successTruthy = true
          · refine ⟨fun h => ?_, fun _ => by simp [arrival, htr], fun h _ => ?_⟩
            · simp [arrival, htr] at h
            · simp [arrival, htr] at h
          · simp only [Bool.not_eq_true] at htr
            refine ⟨fun _ => by simp [arrival, htr], fun h => ?_, fun _ hn => ?_⟩
            · simp [arrival, htr] at h
            · simp only [hasNullErrorField, htr, Bool.not_false, Bool.and_self,
                beq_self_eq_true, Bool.true_and] at hn
              simp only [arrival, htr, if_true, if_false]
              cases hbe : body.error with
              | none => simp [pyGet]
              | some v =>
                cases v with
                | none => simp [hbe] at hn
                | some msg => simp [pyGet, hbe]
        · refine ⟨fun _ => by simp [arrival, h200], fun h => ?_, fun _ _ => by simp [arrival, h200]⟩
          simp [arrival, h200] at h
      | timeoutExc msg =>
        exact ⟨fun _ => rfl, fun h => by simp [arrival] at h, fun _ _ => by simp [arrival]⟩
      | clientErrorExc msg =>
        exact ⟨fun _ => rfl, fun h => by simp [arrival] at h, fun _ _ => by simp [arrival]⟩
      | otherExc msg =>
        exact ⟨fun _ => rfl, fun h => by simp [arrival] at h, fun _ _ => by simp [arrival]⟩

/-- C7 witness: on a network-error outcome, the returned failure has an
empty response text and a present error. -/
theorem C7_witness :
    (chat true 10 (.clientErrorExc "refused")).response = some ""
    ∧ (chat true 10 (.clientErrorExc "refused")).error ≠ none :=
  ⟨(C7_error_iff_failure true 10 (.clientErrorExc "refused")
      (chat true 10 (.clientErrorExc "refused")) (Or.inl rfl)).1 rfl,
   (C7_error_iff_failure true 10 (.clientErrorExc "refused")
      (chat true 10 (.clientErrorExc "refused")) (Or.inl rfl)).2.2 rfl rfl⟩
